import Mathlib

/-!
Shallow embedding of `src/main.rs` (a Bevy + Rapier test scene).

Entities are natural-number identifiers; an `EntityRecord` holds the optional
components this program ever attaches.  The engine's deferred-command queue is
modelled by having each system return the updated world: `convert_proc` is the
only system that mutates entity state, `inspect` and `debug_rbs` are read-only
and return their console output (and gizmo arrows) as data.

Numeric component fields use `ℚ`; every literal the program writes (`0.05`,
`7.874`, `0.7`, `0.0`) is represented exactly, so equality statements between
the code's constants and the spec's constants are preserved.
-/

namespace ProcRbs

/-- Rust `bevy_rapier3d::RigidBody` classification (the variants this program uses). -/
inductive RigidBody where
  | Dynamic
  | Fixed
  | Kinematic
deriving DecidableEq, Repr

/-- Rust `bevy_rapier3d::Damping { linear_damping, angular_damping }`. -/
structure Damping where
  linear_damping : ℚ
  angular_damping : ℚ
deriving DecidableEq, Repr

/-- Rust `bevy_rapier3d::ColliderMassProperties` (only the `Density` variant is used). -/
inductive ColliderMassProperties where
  | Density (d : ℚ)
deriving DecidableEq, Repr

/-- Rust `bevy_rapier3d::Restitution::coefficient(c)`. -/
structure Restitution where
  coefficient : ℚ
deriving DecidableEq, Repr

/-- Rust `bevy_rapier3d::Friction::coefficient(c)`. -/
structure Friction where
  coefficient : ℚ
deriving DecidableEq, Repr

/-- A 3-vector of rationals, standing in for `bevy::Vec3`. -/
structure Vec3 where
  x : ℚ
  y : ℚ
  z : ℚ
deriving DecidableEq, Repr

/-- `bevy::Transform`: only the translation is ever read by this program
(the camera's `looking_at` rotation is never consumed), so the embedding
records the translation. -/
structure Transform where
  translation : Vec3
deriving DecidableEq, Repr

/-- `Transform::from_xyz(x, y, z)`. -/
def Transform.from_xyz (x y z : ℚ) : Transform := ⟨⟨x, y, z⟩⟩

/-- `Collider::cuboid(hx, hy, hz)`: a box collider with the given half-extents. -/
structure Collider where
  hx : ℚ
  hy : ℚ
  hz : ℚ
deriving DecidableEq, Repr

/-- `const DO_WORKAROUND: bool = true;` (src/main.rs line 13). -/
def DO_WORKAROUND : Bool := true

/-- `const LINEAR_DAMPING: f32 = 0.05;` -/
def LINEAR_DAMPING : ℚ := 0.05

/-- `const ANGULAR_DAMPING: f32 = 0.05;` -/
def ANGULAR_DAMPING : ℚ := 0.05

/-- `const DEFAULT_RB: RigidBody = RigidBody::Dynamic;` -/
def DEFAULT_RB : RigidBody := RigidBody.Dynamic

/-- `const DEFAULT_DAMPING: Damping = Damping { .. };` -/
def DEFAULT_DAMPING : Damping :=
  { linear_damping := LINEAR_DAMPING, angular_damping := ANGULAR_DAMPING }

/-- `const DEFAULT_MASS: ColliderMassProperties = ColliderMassProperties::Density(7.874);` -/
def DEFAULT_MASS : ColliderMassProperties := ColliderMassProperties.Density 7.874

/-- `const DEFAULT_RESTITUTION: Restitution = Restitution::coefficient(0.7);` -/
def DEFAULT_RESTITUTION : Restitution := ⟨0.7⟩

/-- `const DEFAULT_FRICTION: Friction = Friction::coefficient(0.0);` -/
def DEFAULT_FRICTION : Friction := ⟨0.0⟩

/-- The component set an entity of this scene can carry.  Marker tags,
`InheritedVisibility`, `Mesh3d`/`MeshMaterial3d` and `Camera3d` are zero-data
(present/absent); the rest keep their data.  `parent` is Bevy's `Parent`
relation component, added by `with_children`. -/
structure EntityRecord where
  markerParent : Bool := false
  markerChild : Bool := false
  transform : Option Transform := none
  inheritedVisibility : Bool := false
  rigidBody : Option RigidBody := none
  damping : Option Damping := none
  collider : Option Collider := none
  colliderMass : Option ColliderMassProperties := none
  restitution : Option Restitution := none
  friction : Option Friction := none
  parent : Option Nat := none
  mesh3d : Bool := false
  meshMaterial3d : Bool := false
  camera3d : Bool := false
deriving DecidableEq, Repr

/-- The entity store: identifier/record pairs in spawn order. -/
abbrev World : Type := List (Nat × EntityRecord)

/-- Bevy `KeyCode`, with the two keys this program reads plus all others. -/
inductive KeyCode where
  | keyG
  | f1
  | other (n : Nat)
deriving DecidableEq, Repr

/-- `Res<ButtonInput<KeyCode>>`, reduced to what `just_pressed` consumes:
which keys are down this frame and which were down last frame. -/
structure ButtonInput where
  pressed : KeyCode → Bool
  prevPressed : KeyCode → Bool

/-- `ButtonInput::just_pressed`: the key is down now and was not down on the
previous frame (edge trigger). -/
def ButtonInput.just_pressed (i : ButtonInput) (k : KeyCode) : Bool :=
  i.pressed k && !(i.prevPressed k)

/-- One console line, as structured data instead of formatted text. -/
inductive LogLine where
  | converting
  | parentAmount (n : Nat)
  | childAmount (n : Nat)
  | finished
  | rbLine (entity : Nat) (pos : Vec3)
  | colHasRbParent (entity : Nat) (found : Bool)
  | entityHeader (entity : Nat)
  | componentName (s : String)
deriving DecidableEq, Repr

/-- A `gizmos.arrow(start, tip, color)` call (the color is the constant red). -/
structure Arrow where
  start : Vec3
  tip : Vec3
deriving DecidableEq, Repr

/-! ## Startup systems -/

/-- `setup_scene`: the camera entity.  `looking_at` only sets rotation, which
nothing in the program reads back. -/
def cameraRecord : EntityRecord :=
  { transform := some (Transform.from_xyz 0 15 15), camera3d := true }

/-- `setup_proc`, parent entity: transform, visibility, `MarkerParent`, and —
when `DO_WORKAROUND` — an additional `RigidBody::Fixed` inserted before any
conversion. -/
def procParentRecord : EntityRecord :=
  let r : EntityRecord :=
    { transform := some (Transform.from_xyz 1 2 0),
      inheritedVisibility := true,
      markerParent := true }
  if DO_WORKAROUND then { r with rigidBody := some RigidBody.Fixed } else r

/-- `setup_proc`, child entity spawned via `with_children` (which attaches the
`Parent` relation pointing at the given parent id): mesh, material, transform,
box collider, `MarkerChild`. -/
def procChildRecord (parentId : Nat) : EntityRecord :=
  { mesh3d := true,
    meshMaterial3d := true,
    transform := some (Transform.from_xyz 0 0 0),
    collider := some ⟨0.5, 0.5, 0.5⟩,
    markerChild := true,
    parent := some parentId }

/-- `setup_static`, parent entity: transform, visibility, then
`RigidBody::Dynamic` and `Damping { 0.05, 0.05 }` inserted immediately. -/
def staticParentRecord : EntityRecord :=
  { transform := some (Transform.from_xyz (-1) 2 0),
    inheritedVisibility := true,
    rigidBody := some RigidBody.Dynamic,
    damping := some { linear_damping := 0.05, angular_damping := 0.05 } }

/-- `setup_static`, child entity via `with_children`: mesh, material,
transform, box collider, then restitution 0.7, friction 0.0,
density 7.874 inserted. -/
def staticChildRecord (parentId : Nat) : EntityRecord :=
  { mesh3d := true,
    meshMaterial3d := true,
    transform := some (Transform.from_xyz 0 0 0),
    collider := some ⟨0.5, 0.5, 0.5⟩,
    restitution := some (Restitution.mk 0.7),
    friction := some (Friction.mk 0.0),
    colliderMass := some (ColliderMassProperties.Density 7.874),
    parent := some parentId }

/-- Entity spawned by `setup_scene`, given its allocated id. -/
def setup_scene (firstId : Nat) : World :=
  [(firstId, cameraRecord)]

/-- Entities spawned by `setup_proc`: parent then child, in allocation order. -/
def setup_proc (firstId : Nat) : World :=
  [(firstId, procParentRecord), (firstId + 1, procChildRecord firstId)]

/-- Entities spawned by `setup_static`: parent then child. -/
def setup_static (firstId : Nat) : World :=
  [(firstId, staticParentRecord), (firstId + 1, staticChildRecord firstId)]

/-- The world after the three startup systems have run, with entity ids
allocated in spawn order: camera = 0, procedural parent/child = 1/2,
static parent/child = 3/4. -/
def startupWorld : World :=
  setup_scene 0 ++ setup_proc 1 ++ setup_static 3

/-! ## `convert_proc` -/

/-- The parents query filter:
`Query<Entity, (With<MarkerParent>, With<Transform>, Without<MarkerChild>)>`. -/
def parentQuery (r : EntityRecord) : Bool :=
  r.markerParent && r.transform.isSome && !r.markerChild

/-- The children query filter:
`Query<Entity, (With<MarkerChild>, With<Transform>, Without<MarkerParent>)>`. -/
def childQuery (r : EntityRecord) : Bool :=
  r.markerChild && r.transform.isSome && !r.markerParent

/-- Commands issued for a matched parent:
`.remove::<MarkerParent>().insert((DEFAULT_RB, DEFAULT_DAMPING))`. -/
def convertParentCmds (r : EntityRecord) : EntityRecord :=
  { r with markerParent := false,
           rigidBody := some DEFAULT_RB,
           damping := some DEFAULT_DAMPING }

/-- Commands issued for a matched child:
`.remove::<MarkerChild>().insert((DEFAULT_MASS, DEFAULT_RESTITUTION, DEFAULT_FRICTION))`. -/
def convertChildCmds (r : EntityRecord) : EntityRecord :=
  { r with markerChild := false,
           colliderMass := some DEFAULT_MASS,
           restitution := some DEFAULT_RESTITUTION,
           friction := some DEFAULT_FRICTION }

/-- The net effect of the two conversion loops on one entity.  Both query
snapshots are taken from the same pre-command world, and the two filters are
mutually exclusive, so at most one branch applies. -/
def convertEntity (r : EntityRecord) : EntityRecord :=
  if parentQuery r then convertParentCmds r
  else if childQuery r then convertChildCmds r
  else r

/-- `convert_proc`: on a `just_pressed(KeyCode::KeyG)` frame, convert every
entity matched by the parent/child queries and report the counts; on any other
frame do nothing.  Returns the world after the deferred commands apply,
together with the console output. -/
def convert_proc (key_input : ButtonInput) (w : World) : World × List LogLine :=
  if key_input.just_pressed KeyCode.keyG then
    (w.map (fun er => (er.1, convertEntity er.2)),
     [LogLine.converting,
      LogLine.parentAmount (w.countP (fun er => parentQuery er.2)),
      LogLine.childAmount (w.countP (fun er => childQuery er.2)),
      LogLine.finished])
  else (w, [])

/-! ## `debug_rbs` -/

/-- The `rbs` query filter: `Query<(Entity, &Transform, &RigidBody)>`. -/
def rbsQuery (r : EntityRecord) : Bool :=
  r.transform.isSome && r.rigidBody.isSome

/-- The `cols` query filter:
`Query<(Entity, &Transform, &Collider, &Parent), Without<RigidBody>>`.
Note the query requires a `Parent` component. -/
def colsQuery (r : EntityRecord) : Bool :=
  r.transform.isSome && r.collider.isSome && r.parent.isSome && !r.rigidBody.isSome

/-- `rbs.get(parent_id)` succeeds exactly when some entity with that id
matches the `rbs` query. -/
def rbsGet (w : World) (pid : Nat) : Bool :=
  w.any (fun er => er.1 == pid && rbsQuery er.2)

/-- The gizmo arrow drawn for a rigid body at translation `t`:
from `t` to `t + Vec3::Y * 2.0`. -/
def rbArrow (t : Vec3) : Arrow :=
  ⟨t, ⟨t.x, t.y + 2, t.z⟩⟩

/-- Translation of an entity's transform, defaulting to the origin (only
applied to records whose transform is present). -/
def translationOf (r : EntityRecord) : Vec3 :=
  match r.transform with
  | some t => t.translation
  | none => ⟨0, 0, 0⟩

/-- `debug_rbs`: runs unconditionally every frame (it requests no key input).
For each entity in the `rbs` query it draws an arrow and prints id/position;
for each entity in the `cols` query it prints whether `rbs.get` on its parent
succeeds.  Read-only: returns the arrows and the console lines. -/
def debug_rbs (w : World) : List Arrow × List LogLine :=
  let rbs := w.filter (fun er => rbsQuery er.2)
  let cols := w.filter (fun er => colsQuery er.2)
  (rbs.map (fun er => rbArrow (translationOf er.2)),
   rbs.map (fun er => LogLine.rbLine er.1 (translationOf er.2)) ++
     cols.map (fun er =>
       LogLine.colHasRbParent er.1 (rbsGet w (er.2.parent.getD 0))))

/-! ## `inspect` -/

/-- The component-type names present on a record, as the archetype reflection
walk would report them (enumeration order is not a guaranteed property). -/
def componentNames (r : EntityRecord) : List String :=
  (if r.markerParent then ["MarkerParent"] else []) ++
  (if r.markerChild then ["MarkerChild"] else []) ++
  (if r.transform.isSome then ["Transform"] else []) ++
  (if r.inheritedVisibility then ["InheritedVisibility"] else []) ++
  (if r.rigidBody.isSome then ["RigidBody"] else []) ++
  (if r.damping.isSome then ["Damping"] else []) ++
  (if r.collider.isSome then ["Collider"] else []) ++
  (if r.colliderMass.isSome then ["ColliderMassProperties"] else []) ++
  (if r.restitution.isSome then ["Restitution"] else []) ++
  (if r.friction.isSome then ["Friction"] else []) ++
  (if r.parent.isSome then ["Parent"] else []) ++
  (if r.mesh3d then ["Mesh3d"] else []) ++
  (if r.meshMaterial3d then ["MeshMaterial3d"] else []) ++
  (if r.camera3d then ["Camera3d"] else [])

/-- `inspect`: on a `just_pressed(KeyCode::F1)` frame, dump every entity's id
and component names; otherwise nothing.  Read-only. -/
def inspect (key_input : ButtonInput) (w : World) : List LogLine :=
  if key_input.just_pressed KeyCode.f1 then
    w.foldr
      (fun er acc =>
        LogLine.entityHeader er.1 ::
          ((componentNames er.2).map LogLine.componentName ++ acc))
      []
  else []

/-! ## Frame stepping -/

/-- The world after one `Update` frame: `convert_proc` is the only system that
issues entity commands; `inspect` and `debug_rbs` are read-only. -/
def stepFrame (key_input : ButtonInput) (w : World) : World :=
  (convert_proc key_input w).1

/-- The world after a sequence of frames with the given per-frame inputs. -/
def runFrames (inputs : List ButtonInput) (w : World) : World :=
  inputs.foldl (fun acc i => stepFrame i acc) w

/-- An input with the conversion key freshly pressed this frame. -/
def gEdgeInput : ButtonInput :=
  { pressed := fun k => match k with | KeyCode.keyG => true | _ => false,
    prevPressed := fun _ => false }

/-- An input with no key pressed this frame or the previous one. -/
def noKeyInput : ButtonInput :=
  { pressed := fun _ => false, prevPressed := fun _ => false }

/-- The world after one G-edge conversion trigger from `w`. -/
def convertOnce (w : World) : World :=
  (convert_proc gEdgeInput w).1

/-- Record of the entity with a given id, if present. -/
def lookupE (w : World) (e : Nat) : Option EntityRecord :=
  (w.find? (fun er => er.1 == e)).map Prod.snd


/-! ## Concrete worlds and inputs used as test cases -/

/-- A collider-bearing entity with a transform, no rigid body of its own and
no `Parent` relation at all. -/
def orphanColliderRecord : EntityRecord :=
  { transform := some (Transform.from_xyz 0 0 0),
    collider := some ⟨0.5, 0.5, 0.5⟩ }

/-- A world holding only the orphaned collider entity. -/
def orphanColliderWorld : World := [(0, orphanColliderRecord)]

/-- A parent entity with a transform but no rigid-body classification. -/
def plainParentRecord : EntityRecord :=
  { transform := some (Transform.from_xyz 0 0 0) }

/-- A collider child whose `Parent` relation points at entity 0. -/
def nonRbChildRecord : EntityRecord :=
  { transform := some (Transform.from_xyz 0 1 0),
    collider := some ⟨0.5, 0.5, 0.5⟩,
    parent := some 0 }

/-- A world where the collider child's parent carries no rigid body. -/
def nonRbParentWorld : World :=
  [(0, plainParentRecord), (1, nonRbChildRecord)]

/-- An input with a fresh G press this frame, every other key held down since
the previous frame and F1 released: it agrees with `gEdgeInput` on
`just_pressed` for G and F1 while differing on all other keys. -/
def gEdgeHeldOther : ButtonInput :=
  { pressed := fun k => match k with | KeyCode.f1 => false | _ => true,
    prevPressed := fun k => match k with | KeyCode.other _ => true | _ => false }

/-- The spec invariant on marker tags: no entity carries both markers, and a
`MarkerParent` entity always has a transform. -/
def markerInvariant (w : World) : Bool :=
  w.all fun er =>
    !(er.2.markerParent && er.2.markerChild) &&
      (!er.2.markerParent || er.2.transform.isSome)

/-! ## Helper lemmas on frame stepping -/

/-- The world after the one conversion trigger from the startup state. -/
def convertedWorld : World := convertOnce startupWorld

/-- On a frame without a fresh G press, `convert_proc` converts nothing and
prints nothing. -/
theorem convert_proc_no_edge (i : ButtonInput) (w : World)
    (h : i.just_pressed KeyCode.keyG = false) :
    convert_proc i w = (w, []) := by
  simp [convert_proc, h]

/-- On a frame with a fresh G press, the post-command world is `convertOnce w`
regardless of the rest of the input. -/
theorem convert_proc_edge (i : ButtonInput) (w : World)
    (h : i.just_pressed KeyCode.keyG = true) :
    (convert_proc i w).1 = convertOnce w := by
  unfold convert_proc convertOnce
  simp only [h]
  rfl

/-- Every frame either leaves the world unchanged or applies one conversion. -/
theorem stepFrame_cases (i : ButtonInput) (w : World) :
    stepFrame i w = w ∨ stepFrame i w = convertOnce w := by
  cases h : i.just_pressed KeyCode.keyG with
  | false =>
      left
      unfold stepFrame
      rw [convert_proc_no_edge i w h]
  | true =>
      right
      exact convert_proc_edge i w h

/-- The converted world is a fixed point of conversion. -/
theorem convertOnce_fixed : convertOnce convertedWorld = convertedWorld := rfl

/-- Only two worlds are reachable from startup: the startup world itself and
the converted world. -/
theorem reach_cases (inputs : List ButtonInput) (w : World)
    (hw : w = startupWorld ∨ w = convertedWorld) :
    runFrames inputs w = startupWorld ∨ runFrames inputs w = convertedWorld := by
  induction inputs generalizing w with
  | nil => simpa [runFrames] using hw
  | cons i rest ih =>
      have hstep : stepFrame i w = startupWorld ∨ stepFrame i w = convertedWorld := by
        rcases stepFrame_cases i w with h | h <;> rcases hw with hw2 | hw2
        · left; rw [h, hw2]
        · right; rw [h, hw2]
        · right; rw [h, hw2]; rfl
        · right; rw [h, hw2]; exact convertOnce_fixed
      have hrw : runFrames (i :: rest) w = runFrames rest (stepFrame i w) := rfl
      rw [hrw]
      exact ih (stepFrame i w) hstep

/-! ## Claims -/

/-- C1: when the conversion key is freshly pressed, every entity matching the
parent query (has `MarkerParent`, has a transform, lacks `MarkerChild`) is
replaced in the post-command world by its converted record, which no longer
carries `MarkerParent` and carries a dynamic rigid-body classification and
damping with linear and angular coefficients 0.05. -/
theorem convert_parent_effect (i : ButtonInput) (w : World) (e : Nat)
    (r : EntityRecord) (hkey : i.just_pressed KeyCode.keyG = true)
    (hmem : (e, r) ∈ w) (hq : parentQuery r = true) :
    (e, convertParentCmds r) ∈ (convert_proc i w).1 ∧
      (convertParentCmds r).markerParent = false ∧
      (convertParentCmds r).rigidBody = some RigidBody.Dynamic ∧
      (convertParentCmds r).damping =
        some { linear_damping := 0.05, angular_damping := 0.05 } := by
  refine ⟨?_, rfl, rfl, rfl⟩
  have h1 : (e, convertParentCmds r) ∈
      w.map (fun er => (er.1, convertEntity er.2)) := by
    have h2 : (e, convertEntity r) ∈
        w.map (fun er => (er.1, convertEntity er.2)) :=
      List.mem_map_of_mem _ hmem
    have h3 : convertEntity r = convertParentCmds r := by
      simp [convertEntity, hq]
    rwa [h3] at h2
  simpa [convert_proc, hkey] using h1

/-- C1 witness: the procedural parent (entity 1) at startup. -/
theorem convert_parent_effect_witness :
    gEdgeInput.just_pressed KeyCode.keyG = true ∧
    (1, procParentRecord) ∈ startupWorld ∧
    parentQuery procParentRecord = true ∧
    ((1, convertParentCmds procParentRecord) ∈
        (convert_proc gEdgeInput startupWorld).1 ∧
      (convertParentCmds procParentRecord).markerParent = false ∧
      (convertParentCmds procParentRecord).rigidBody = some RigidBody.Dynamic ∧
      (convertParentCmds procParentRecord).damping =
        some { linear_damping := 0.05, angular_damping := 0.05 }) :=
  ⟨rfl, List.Mem.tail _ (List.Mem.head _), rfl,
    convert_parent_effect gEdgeInput startupWorld 1 procParentRecord rfl
      (List.Mem.tail _ (List.Mem.head _)) rfl⟩

/-- C2: when the conversion key is freshly pressed, every entity matching the
child query (has `MarkerChild`, has a transform, lacks `MarkerParent`) is
replaced in the post-command world by its converted record, which no longer
carries `MarkerChild` and carries density 7.874, restitution 0.7 and
friction 0.0. -/
theorem convert_child_effect (i : ButtonInput) (w : World) (e : Nat)
    (r : EntityRecord) (hkey : i.just_pressed KeyCode.keyG = true)
    (hmem : (e, r) ∈ w) (hq : childQuery r = true) :
    (e, convertChildCmds r) ∈ (convert_proc i w).1 ∧
      (convertChildCmds r).markerChild = false ∧
      (convertChildCmds r).colliderMass =
        some (ColliderMassProperties.Density 7.874) ∧
      (convertChildCmds r).restitution = some (Restitution.mk 0.7) ∧
      (convertChildCmds r).friction = some (Friction.mk 0.0) := by
  refine ⟨?_, rfl, rfl, rfl, rfl⟩
  have h1 : (e, convertChildCmds r) ∈
      w.map (fun er => (er.1, convertEntity er.2)) := by
    have h2 : (e, convertEntity r) ∈
        w.map (fun er => (er.1, convertEntity er.2)) :=
      List.mem_map_of_mem _ hmem
    have hnp : parentQuery r = false := by
      have hmc : r.markerChild = true := by
        simp [childQuery] at hq
        exact hq.1.1
      simp [parentQuery, hmc]
    have h3 : convertEntity r = convertChildCmds r := by
      simp [convertEntity, hnp, hq]
    rwa [h3] at h2
  simpa [convert_proc, hkey] using h1

/-- C2 witness: the procedural child (entity 2) at startup. -/
theorem convert_child_effect_witness :
    gEdgeInput.just_pressed KeyCode.keyG = true ∧
    (2, procChildRecord 1) ∈ startupWorld ∧
    childQuery (procChildRecord 1) = true ∧
    ((2, convertChildCmds (procChildRecord 1)) ∈
        (convert_proc gEdgeInput startupWorld).1 ∧
      (convertChildCmds (procChildRecord 1)).markerChild = false ∧
      (convertChildCmds (procChildRecord 1)).colliderMass =
        some (ColliderMassProperties.Density 7.874) ∧
      (convertChildCmds (procChildRecord 1)).restitution =
        some (Restitution.mk 0.7) ∧
      (convertChildCmds (procChildRecord 1)).friction =
        some (Friction.mk 0.0)) :=
  ⟨rfl, List.Mem.tail _ (List.Mem.tail _ (List.Mem.head _)), rfl,
    convert_child_effect gEdgeInput startupWorld 2 (procChildRecord 1) rfl
      (List.Mem.tail _ (List.Mem.tail _ (List.Mem.head _))) rfl⟩

/-- C3: conversion is idempotent from the post-startup state: a second
edge-trigger leaves the world unchanged and reports parent and child counts
of 0. -/
theorem convert_idempotent :
    convertOnce (convertOnce startupWorld) = convertOnce startupWorld ∧
    (convert_proc gEdgeInput (convertOnce startupWorld)).2 =
      [LogLine.converting, LogLine.parentAmount 0, LogLine.childAmount 0,
        LogLine.finished] :=
  ⟨rfl, rfl⟩

/-- C4 counterexample: an entity with a collider and a transform, no rigid
body and no `Parent` relation at all is filtered out of the `cols` query, so
`debug_rbs` prints nothing at all for it — it does not report
"Has RB parent: false". -/
theorem orphan_collider_not_reported :
    orphanColliderRecord.collider.isSome = true ∧
    orphanColliderRecord.transform.isSome = true ∧
    orphanColliderRecord.rigidBody = none ∧
    orphanColliderRecord.parent = none ∧
    (debug_rbs orphanColliderWorld).1 = [] ∧
    (debug_rbs orphanColliderWorld).2 = [] :=
  ⟨rfl, rfl, rfl, rfl, rfl, rfl⟩

/-- C4 amended: the ancestry check prints "Has RB parent: false" for a
collider entity whose `Parent` relation points at an entity that does not
match the rigid-body query; an entity with no `Parent` relation at all is
skipped by the query and nothing is printed for it, in both cases without
failing. -/
theorem collider_parent_check_false (w : World) (e : Nat) (r : EntityRecord)
    (p : Nat) (hmem : (e, r) ∈ w) (hq : colsQuery r = true)
    (hp : r.parent = some p) (hrb : rbsGet w p = false) :
    LogLine.colHasRbParent e false ∈ (debug_rbs w).2 := by
  have h1 : (e, r) ∈ w.filter (fun er => colsQuery er.2) :=
    List.mem_filter.mpr ⟨hmem, hq⟩
  have h2 : LogLine.colHasRbParent e (rbsGet w (r.parent.getD 0)) ∈
      (w.filter (fun er => colsQuery er.2)).map
        (fun er => LogLine.colHasRbParent er.1 (rbsGet w (er.2.parent.getD 0))) :=
    List.mem_map_of_mem _ h1
  have h3 : rbsGet w (r.parent.getD 0) = false := by
    rw [hp]
    exact hrb
  rw [h3] at h2
  exact List.mem_append_right _ h2

/-- C4 witness: the collider child of `nonRbParentWorld`, whose parent has no
rigid body. -/
theorem collider_parent_check_false_witness :
    (1, nonRbChildRecord) ∈ nonRbParentWorld ∧
    colsQuery nonRbChildRecord = true ∧
    nonRbChildRecord.parent = some 0 ∧
    rbsGet nonRbParentWorld 0 = false ∧
    LogLine.colHasRbParent 1 false ∈ (debug_rbs nonRbParentWorld).2 :=
  ⟨List.Mem.tail _ (List.Mem.head _), rfl, rfl, rfl,
    collider_parent_check_false nonRbParentWorld 1 nonRbChildRecord 0
      (List.Mem.tail _ (List.Mem.head _)) rfl rfl rfl⟩

/-- C5 counterexample: on a frame where no key is freshly pressed (here no
key is pressed at all), `debug_rbs` still draws its arrows and prints its
rigid-body and ancestry lines — the visualization is not key-gated. -/
theorem debug_rbs_runs_without_keypress :
    noKeyInput.just_pressed KeyCode.keyG = false ∧
    noKeyInput.just_pressed KeyCode.f1 = false ∧
    (debug_rbs startupWorld).1 =
      [rbArrow ⟨1, 2, 0⟩, rbArrow ⟨-1, 2, 0⟩] ∧
    (debug_rbs startupWorld).2 =
      [LogLine.rbLine 1 ⟨1, 2, 0⟩, LogLine.rbLine 3 ⟨-1, 2, 0⟩,
        LogLine.colHasRbParent 2 true, LogLine.colHasRbParent 4 true] :=
  ⟨rfl, rfl, rfl, rfl⟩

/-- C5 amended: the rigid-body visualization is not gated by any key: it
requests no key input and performs its work every frame — on every frame, for
every entity with a rigid-body classification and a transform it draws the
upward arrow from the entity's position and prints its identifier and
position.  Only the component dump (`inspect`) is key-gated. -/
theorem debug_rbs_every_frame (w : World) (e : Nat) (r : EntityRecord)
    (t : Transform) (hmem : (e, r) ∈ w) (ht : r.transform = some t)
    (hrb : r.rigidBody.isSome = true) :
    rbArrow t.translation ∈ (debug_rbs w).1 ∧
    LogLine.rbLine e t.translation ∈ (debug_rbs w).2 := by
  have hq : rbsQuery r = true := by
    simp [rbsQuery, ht, hrb]
  have h1 : (e, r) ∈ w.filter (fun er => rbsQuery er.2) :=
    List.mem_filter.mpr ⟨hmem, hq⟩
  have htr : translationOf r = t.translation := by
    simp [translationOf, ht]
  constructor
  · have h2 : rbArrow (translationOf r) ∈
        (w.filter (fun er => rbsQuery er.2)).map
          (fun er => rbArrow (translationOf er.2)) :=
      List.mem_map_of_mem _ h1
    rw [htr] at h2
    exact h2
  · have h2 : LogLine.rbLine e (translationOf r) ∈
        (w.filter (fun er => rbsQuery er.2)).map
          (fun er => LogLine.rbLine er.1 (translationOf er.2)) :=
      List.mem_map_of_mem _ h1
    rw [htr] at h2
    exact List.mem_append_left _ h2

/-- C5 witness: the static parent (entity 3) at the startup world. -/
theorem debug_rbs_every_frame_witness :
    (3, staticParentRecord) ∈ startupWorld ∧
    staticParentRecord.transform = some (Transform.from_xyz (-1) 2 0) ∧
    staticParentRecord.rigidBody.isSome = true ∧
    (rbArrow (Transform.from_xyz (-1) 2 0).translation ∈
        (debug_rbs startupWorld).1 ∧
      LogLine.rbLine 3 (Transform.from_xyz (-1) 2 0).translation ∈
        (debug_rbs startupWorld).2) :=
  ⟨List.Mem.tail _ (List.Mem.tail _ (List.Mem.tail _ (List.Mem.head _))),
    rfl, rfl,
    debug_rbs_every_frame startupWorld 3 staticParentRecord
      (Transform.from_xyz (-1) 2 0)
      (List.Mem.tail _ (List.Mem.tail _ (List.Mem.tail _ (List.Mem.head _))))
      rfl rfl⟩

/-- C6: after startup exactly one entity (1) carries `MarkerParent` and
exactly one (2) carries `MarkerChild`; both have transforms; the marked
child's `Parent` relation points at the marked parent; and neither entity of
the static graph (3, 4) carries either marker. -/
theorem startup_marker_layout :
    (startupWorld.countP fun er => er.2.markerParent) = 1 ∧
    (startupWorld.countP fun er => er.2.markerChild) = 1 ∧
    (lookupE startupWorld 1).map
      (fun r => (r.markerParent, r.transform.isSome)) = some (true, true) ∧
    (lookupE startupWorld 2).map
      (fun r => (r.markerChild, r.transform.isSome, r.parent)) =
      some (true, true, some 1) ∧
    (lookupE startupWorld 3).map
      (fun r => (r.markerParent, r.markerChild)) = some (false, false) ∧
    (lookupE startupWorld 4).map
      (fun r => (r.markerParent, r.markerChild)) = some (false, false) :=
  ⟨rfl, rfl, rfl, rfl, rfl, rfl⟩

/-- C7: `convert_proc` converts nothing and changes no entity state on a
frame without a fresh G press (unpressed or held); its behavior depends on
the input only through `just_pressed` of G, and `inspect` depends on the
input only through `just_pressed` of F1 — no other key is consumed. -/
theorem input_gating (i j : ButtonInput) (w : World) :
    (i.just_pressed KeyCode.keyG = false → convert_proc i w = (w, [])) ∧
    (i.just_pressed KeyCode.keyG = j.just_pressed KeyCode.keyG →
      convert_proc i w = convert_proc j w) ∧
    (i.just_pressed KeyCode.f1 = j.just_pressed KeyCode.f1 →
      inspect i w = inspect j w) := by
  refine ⟨fun h => convert_proc_no_edge i w h, fun h => ?_, fun h => ?_⟩
  · unfold convert_proc
    rw [h]
  · unfold inspect
    rw [h]

/-- C7 witness: a no-key frame converts nothing; two inputs agreeing on the
G edge but differing on every other key produce the same conversion; two
inputs agreeing on the F1 edge produce the same dump. -/
theorem input_gating_witness :
    (noKeyInput.just_pressed KeyCode.keyG = false ∧
      convert_proc noKeyInput startupWorld = (startupWorld, [])) ∧
    (gEdgeInput.just_pressed KeyCode.keyG =
        gEdgeHeldOther.just_pressed KeyCode.keyG ∧
      convert_proc gEdgeInput startupWorld =
        convert_proc gEdgeHeldOther startupWorld) ∧
    (noKeyInput.just_pressed KeyCode.f1 = gEdgeInput.just_pressed KeyCode.f1 ∧
      inspect noKeyInput startupWorld = inspect gEdgeInput startupWorld) :=
  ⟨⟨rfl, (input_gating noKeyInput gEdgeInput startupWorld).1 rfl⟩,
    ⟨rfl, (input_gating gEdgeInput gEdgeHeldOther startupWorld).2.1 rfl⟩,
    ⟨rfl, (input_gating noKeyInput gEdgeInput startupWorld).2.2 rfl⟩⟩

/-- C8: in every reachable state — startup followed by any sequence of
frames — no entity carries both markers and every `MarkerParent` entity has a
transform. -/
theorem marker_invariant_reachable (inputs : List ButtonInput) :
    markerInvariant (runFrames inputs startupWorld) = true := by
  rcases reach_cases inputs startupWorld (Or.inl rfl) with h | h <;> rw [h] <;> rfl

/-- The console lines of `debug_rbs` at the startup world. -/
theorem debug_rbs_startup_lines :
    (debug_rbs startupWorld).2 =
      [LogLine.rbLine 1 ⟨1, 2, 0⟩, LogLine.rbLine 3 ⟨-1, 2, 0⟩,
        LogLine.colHasRbParent 2 true, LogLine.colHasRbParent 4 true] := rfl

/-- The console lines of `debug_rbs` at the converted world. -/
theorem debug_rbs_converted_lines :
    (debug_rbs convertedWorld).2 =
      [LogLine.rbLine 1 ⟨1, 2, 0⟩, LogLine.rbLine 3 ⟨-1, 2, 0⟩,
        LogLine.colHasRbParent 2 true, LogLine.colHasRbParent 4 true] := rfl

/-- C9: the static graph's collider child (entity 4) is reported with
"Has RB parent: true" by `debug_rbs` in every reachable state, before and
after any number of conversion triggers. -/
theorem static_child_rb_parent_true (inputs : List ButtonInput) :
    LogLine.colHasRbParent 4 true ∈
      (debug_rbs (runFrames inputs startupWorld)).2 := by
  rcases reach_cases inputs startupWorld (Or.inl rfl) with h | h <;> rw [h]
  · rw [debug_rbs_startup_lines]
    exact List.Mem.tail _ (List.Mem.tail _ (List.Mem.tail _ (List.Mem.head _)))
  · rw [debug_rbs_converted_lines]
    exact List.Mem.tail _ (List.Mem.tail _ (List.Mem.tail _ (List.Mem.head _)))

/-- C10: the workaround flag is enabled, so the procedural parent carries
`RigidBody::Fixed` from startup, and one conversion trigger overwrites its
single rigid-body slot with `RigidBody::Dynamic`. -/
theorem workaround_rb_overwritten :
    DO_WORKAROUND = true ∧
    (lookupE startupWorld 1).map (fun r => r.rigidBody) =
      some (some RigidBody.Fixed) ∧
    (lookupE (convertOnce startupWorld) 1).map (fun r => r.rigidBody) =
      some (some RigidBody.Dynamic) :=
  ⟨rfl, rfl, rfl⟩

end ProcRbs
